import Mathlib

/-!
Shallow embedding of the MotherDuck MCP server's tool-dispatch and
connection-lifecycle layer (`createServer`'s `CallToolRequestSchema` handler),
together with theorems about its behaviour.

The underlying database engine (`@duckdb/node-api`) is an external
collaborator: it is represented by an oracle supplying the outcome of each
engine primitive (`DuckDBInstance.create`, `instance.connect`,
`connection.run`).  Engine instances and connections are identified by
natural-number ids handed out by counters, so that "the same instance" and
"a fresh connection" are expressible.
-/

namespace MotherDuckServer

/-- Decidable equality of `Except` results, so concrete runs can be checked
by `decide`. -/
instance exceptDecEq {ε α : Type} [DecidableEq ε] [DecidableEq α] :
    DecidableEq (Except ε α) :=
  fun a b =>
    match a, b with
    | .ok x, .ok y => if h : x = y then .isTrue (by rw [h]) else .isFalse (by simp [h])
    | .error x, .error y => if h : x = y then .isTrue (by rw [h]) else .isFalse (by simp [h])
    | .ok _, .error _ => .isFalse (by simp)
    | .error _, .ok _ => .isFalse (by simp)

/-- JavaScript's `String.prototype.toUpperCase()` on the string's characters
(character-wise upper-casing). -/
def jsToUpperCase (s : String) : String := ⟨s.data.map Char.toUpper⟩

/-- JavaScript's `String.prototype.trim()`: strip leading and trailing
whitespace. -/
def jsTrim (s : String) : String :=
  ⟨((s.data.dropWhile Char.isWhitespace).reverse.dropWhile Char.isWhitespace).reverse⟩

/-- `type.trim().toUpperCase()`, the kind normalisation applied by
`initialize-connection`. -/
def normalizeKind (s : String) : String := jsToUpperCase (jsTrim s)

/-- JSON-like values, the shape of a tool invocation's `arguments` payload. -/
inductive JsonValue where
  | null
  | bool (b : Bool)
  | num (n : Int)
  | str (s : String)
  | arr (items : List JsonValue)
  | obj (fields : List (String × JsonValue))

/-- First-match field lookup in a JSON object's field list. -/
def lookupField : List (String × JsonValue) → String → Option JsonValue
  | [], _ => none
  | (k, v) :: rest, key => if k = key then some v else lookupField rest key

/-- `z.object({ field: z.string() }).parse(args)`: the argument payload must be
an object whose `field` is a string; unknown keys are stripped (zod's default
object behaviour), so the parse result depends only on the required field.
Each of the three schemas (`InitializeConnectionSchema`, `ReadSchemasSchema`,
`ExecuteQuerySchema`) is this parser at its single field name. -/
def parseStringField (field : String) (args : JsonValue) : Except String String :=
  match args with
  | .obj fs =>
    match lookupField fs field with
    | some (.str v) => .ok v
    | some _ => .error ("Expected string, received other type at " ++ field)
    | none => .error ("Required field missing: " ++ field)
  | _ => .error "Expected object"

/-- The module-level mutable state of the server: `instance` and `connection`
(`let instance: DuckDBInstance | null = null; let connection: DuckDBConnection
| null = null`), plus bookkeeping counters handing out fresh ids so engine
instances and connections are distinguishable. -/
structure ServerState where
  inst : Option Nat
  conn : Option Nat
  nextInst : Nat
  nextConn : Nat
deriving Repr, DecidableEq

/-- State at process start: no instance, no connection. -/
def initialState : ServerState := ⟨none, none, 0, 0⟩

/-- Outcomes of the external engine's primitives.  `create i` is the outcome
of `DuckDBInstance.create(':memory:')` when it would produce instance `i`;
`connect c` is the outcome of `instance.connect()` when it would produce
connection `c`; `attachedDatabases c` is the engine's answer (or failure) to
the fixed database-listing introspection query on connection `c`; `run c q`
is the outcome of `connection.run(q)` on connection `c`, its `String` result
standing for the (serialised) engine result. -/
structure EngineOracle where
  create : Nat → Except String Unit
  connect : Nat → Except String Unit
  attachedDatabases : Nat → Except String (List String)
  run : Nat → String → Except String String

/-- The process environment as consulted by the handler:
`process.env.motherduck_token`, absent or a string. -/
structure Env where
  motherduck_token : Option String
deriving Repr, DecidableEq

/-- JavaScript truthiness of `process.env.motherduck_token` as used in
`!process.env.motherduck_token`: `undefined` and the empty string are falsy,
every other string is truthy. -/
def Env.tokenTruthy (e : Env) : Bool :=
  match e.motherduck_token with
  | none => false
  | some s => s ≠ ""

/-- One content item of a tool response (here always a text item). -/
inductive ContentItem where
  | text (s : String)
deriving Repr, DecidableEq

/-- A success envelope: a list of content items. -/
structure ToolResponse where
  content : List ContentItem
deriving Repr, DecidableEq

/-- The error conditions the handler can signal (each surfaces as a thrown
`Error` whose message is given by `ToolError.message`). -/
inductive ToolError where
  | validationError (msg : String)
  | unsupportedKind
  | missingCredential
  | connectionFailed (msg : String)
  | noActiveSession
  | schemaReadFailed (msg : String)
  | queryFailed (msg : String)
  | unknownTool (toolName : String)
deriving Repr, DecidableEq

/-- The human-readable message of each error, as in the source. -/
def ToolError.message : ToolError → String
  | .validationError m => m
  | .unsupportedKind => "Only \"DuckDB\" or \"MotherDuck\" are supported"
  | .missingCredential => "Please set the `motherduck_token` environment variable."
  | .connectionFailed m => "Failed to connect: " ++ m
  | .noActiveSession => "No active database connection. Please initialize one first."
  | .schemaReadFailed m => "Failed to read schemas: " ++ m
  | .queryFailed m => "Error querying the database: " ++ m
  | .unknownTool n => "Unknown tool: " ++ n

/-- Modelled from the spec: the external engine's evaluation of the fixed
introspection query sent while establishing a session
(`SELECT string_agg(database_name, ',\n') FROM duckdb_databases() WHERE
database_name NOT IN ('system', 'temp')`).  The engine itself is outside the
repository; per its documented SQL semantics this query aggregates the names
of the attached databases other than `system` and `temp`, joined by
comma-newline.  The oracle supplies the attached names (or an engine
failure); the filter and aggregation mirror the query's `WHERE` and
`string_agg`. -/
def databasesQueryResult (o : EngineOracle) (c : Nat) : Except String String :=
  match o.attachedDatabases c with
  | .error m => .error m
  | .ok names =>
      .ok (String.intercalate ",\n"
        (names.filter (fun n => n != "system" && n != "temp")))

/-- The tables-introspection query issued by `read-schemas`, with
`database_name` interpolated into the query text (as in the source). -/
def tablesQuery (database_name : String) : String :=
  "SELECT string_agg(regexp_replace(sql, 'CREATE TABLE ', 'CREATE TABLE '||database_name||'.'), '\n\n') as sql FROM duckdb_tables() WHERE database_name = '"
    ++ database_name ++ "'"

/-- The views-introspection query issued by `read-schemas`, with
`database_name` interpolated into the query text (as in the source). -/
def viewsQuery (database_name : String) : String :=
  "SELECT string_agg(regexp_replace(sql, 'CREATE TABLE ', 'CREATE TABLE '||database_name||'.'), '\n\n') as sql FROM duckdb_views() WHERE schema_name NOT IN ('information_schema', 'pg_catalog', 'localmemdb') AND view_name NOT IN (...) AND database_name = '"
    ++ database_name ++ "'"

/-- The part of the `initialize-connection` try-block after the instance
exists: `connection = await instance.connect()`, then the database-listing
query, then the success envelope.  The connection variable is assigned the
fresh connection id only after `connect` returns successfully; a failure of
the subsequent listing query is caught by the same `catch` and wrapped as
`Failed to connect`, with the new connection already installed. -/
def connectStep (o : EngineOracle) (dbType : String) (s : ServerState) :
    ServerState × Except ToolError ToolResponse :=
  match o.connect s.nextConn with
  | .error m => (s, .error (.connectionFailed m))
  | .ok _ =>
    let s' : ServerState :=
      { s with conn := some s.nextConn, nextConn := s.nextConn + 1 }
    match databasesQueryResult o s.nextConn with
    | .error m => (s', .error (.connectionFailed m))
    | .ok dbs =>
      (s', .ok ⟨[.text ("Connection to " ++ dbType
        ++ " successfully established. Here are the available databases: \n"
        ++ dbs)]⟩)

/-- The `initialize-connection` try-block: `if (!instance) instance = await
DuckDBInstance.create(':memory:')` then `connectStep`.  A throw from
`create` is caught and wrapped as `Failed to connect`, leaving `instance`
unassigned. -/
def tryConnect (o : EngineOracle) (dbType : String) (s : ServerState) :
    ServerState × Except ToolError ToolResponse :=
  match s.inst with
  | some _ => connectStep o dbType s
  | none =>
    match o.create s.nextInst with
    | .error m => (s, .error (.connectionFailed m))
    | .ok _ =>
      connectStep o dbType { s with inst := some s.nextInst, nextInst := s.nextInst + 1 }

/-- The `initialize-connection` handler: zod-parse `type`, normalise it with
`trim().toUpperCase()`, reject kinds other than `DUCKDB`/`MOTHERDUCK`,
require a truthy `motherduck_token` for `MOTHERDUCK`, then run the
try-block. -/
def initializeConnection (o : EngineOracle) (env : Env) (s : ServerState)
    (args : JsonValue) : ServerState × Except ToolError ToolResponse :=
  match parseStringField "type" args with
  | .error m => (s, .error (.validationError m))
  | .ok ty =>
    if !(["DUCKDB", "MOTHERDUCK"].contains (normalizeKind ty)) then
      (s, .error .unsupportedKind)
    else if normalizeKind ty == "MOTHERDUCK" && !env.tokenTruthy then
      (s, .error .missingCredential)
    else
      tryConnect o (normalizeKind ty) s

/-- The `read-schemas` handler: first the `if (!connection)` check, then the
zod parse of `database_name`, then the two introspection queries, then the
success envelope. -/
def readSchemas (o : EngineOracle) (s : ServerState) (args : JsonValue) :
    ServerState × Except ToolError ToolResponse :=
  match s.conn with
  | none => (s, .error .noActiveSession)
  | some c =>
    match parseStringField "database_name" args with
    | .error m => (s, .error (.validationError m))
    | .ok database_name =>
      match o.run c (tablesQuery database_name) with
      | .error m => (s, .error (.schemaReadFailed m))
      | .ok tables =>
        match o.run c (viewsQuery database_name) with
        | .error m => (s, .error (.schemaReadFailed m))
        | .ok views =>
          (s, .ok ⟨[.text ("Here are all tables: \n" ++ tables
            ++ " \n\n Here are all views: " ++ views)]⟩)

/-- The `execute-query` handler: first the `if (!connection)` check, then the
zod parse of `query`, then `connection.run(query)`, then the success
envelope carrying the serialised result. -/
def executeQuery (o : EngineOracle) (s : ServerState) (args : JsonValue) :
    ServerState × Except ToolError ToolResponse :=
  match s.conn with
  | none => (s, .error .noActiveSession)
  | some c =>
    match parseStringField "query" args with
    | .error m => (s, .error (.validationError m))
    | .ok query =>
      match o.run c query with
      | .error m => (s, .error (.queryFailed m))
      | .ok results => (s, .ok ⟨[.text results]⟩)

/-- The `CallToolRequestSchema` dispatcher: route on the tool name, fall
through to `Unknown tool`. -/
def callTool (o : EngineOracle) (env : Env) (s : ServerState)
    (toolName : String) (args : JsonValue) :
    ServerState × Except ToolError ToolResponse :=
  if toolName = "initialize-connection" then initializeConnection o env s args
  else if toolName = "read-schemas" then readSchemas o s args
  else if toolName = "execute-query" then executeQuery o s args
  else (s, .error (.unknownTool toolName))

/-! ## Concrete fixtures for witnesses -/

/-- An engine oracle for concrete runs: every primitive succeeds; three
databases are attached, two of them the system ones. -/
def okOracle : EngineOracle where
  create := fun _ => .ok ()
  connect := fun _ => .ok ()
  attachedDatabases := fun _ => .ok ["mydb", "system", "temp"]
  run := fun _ _ => .ok "result"

/-- An environment with no credential variable set. -/
def envNone : Env := ⟨none⟩

/-- Valid arguments for `initialize-connection` selecting local DuckDB. -/
def dkArgs : JsonValue := .obj [("type", .str "DuckDB")]

/-! ## Theorems -/

/-- **C1**: while no Session exists (`connection = null`), every invocation
of `read-schemas` or `execute-query` fails with `NoActiveSession`, leaves the
state unchanged, and performs no engine operation (the result is the same for
every engine oracle): neither tool auto-initialises a connection. -/
theorem c1_tools_require_session (o : EngineOracle) (env : Env)
    (s : ServerState) (toolName : String) (args : JsonValue)
    (hname : toolName = "read-schemas" ∨ toolName = "execute-query")
    (hconn : s.conn = none) :
    callTool o env s toolName args = (s, .error .noActiveSession) := by
  rcases hname with h | h <;> subst h <;>
    simp [callTool, readSchemas, executeQuery, hconn]

/-- Witness for C1: `read-schemas` from the initial state fails with
`NoActiveSession`. -/
theorem c1_tools_require_session_witness :
    callTool okOracle envNone initialState "read-schemas" .null
      = (initialState, .error .noActiveSession) :=
  c1_tools_require_session okOracle envNone initialState "read-schemas" .null
    (Or.inl rfl) rfl

/-- A successful `connectStep` installs the fresh connection id, bumps the
connection counter and leaves the instance fields untouched. -/
theorem connectStep_ok (o : EngineOracle) (dbType : String) (s s' : ServerState)
    (r : ToolResponse) (h : connectStep o dbType s = (s', .ok r)) :
    s' = { s with conn := some s.nextConn, nextConn := s.nextConn + 1 } := by
  unfold connectStep at h
  split at h
  · simp at h
  · split at h
    · simp at h
    · exact (Prod.mk.injEq _ _ _ _ ▸ h).1.symm ▸ rfl

/-- A successful `initialize-connection` installs the fresh connection id and
bumps the connection counter; when an instance already existed it is reused
(instance fields unchanged). -/
theorem initializeConnection_ok (o : EngineOracle) (env : Env)
    (s s' : ServerState) (args : JsonValue) (r : ToolResponse)
    (h : initializeConnection o env s args = (s', .ok r)) :
    s'.conn = some s.nextConn ∧ s'.nextConn = s.nextConn + 1 ∧
    s'.inst ≠ none ∧
    (∀ i, s.inst = some i → s'.inst = some i ∧ s'.nextInst = s.nextInst) := by
  unfold initializeConnection at h
  split at h
  · simp at h
  · split at h
    · simp at h
    · split at h
      · simp at h
      · unfold tryConnect at h
        split at h
        · have hs := connectStep_ok _ _ _ _ _ h
          subst hs
          simp_all
        · split at h
          · simp at h
          · have hs := connectStep_ok _ _ _ _ _ h
            subst hs
            simp_all

/-- **C2**: across two successful `initialize-connection` calls the engine
instance is reused, never recreated (the instance field and the
instance-creation counter are unchanged by the second call); exactly one
Session is active afterwards — the second call's fresh connection, distinct
from the first call's — and a subsequent `execute-query` runs its query on
that second connection. -/
theorem c2_engine_once_session_replaced (o : EngineOracle) (env : Env)
    (s s1 s2 : ServerState) (args1 args2 : JsonValue) (r1 r2 : ToolResponse)
    (h1 : callTool o env s "initialize-connection" args1 = (s1, .ok r1))
    (h2 : callTool o env s1 "initialize-connection" args2 = (s2, .ok r2)) :
    s2.inst = s1.inst ∧ s2.nextInst = s1.nextInst ∧
    s1.conn = some s.nextConn ∧ s2.conn = some s1.nextConn ∧
    s.nextConn ≠ s1.nextConn ∧
    (∀ (qargs : JsonValue) (q : String),
      parseStringField "query" qargs = .ok q →
      callTool o env s2 "execute-query" qargs =
        (s2, match o.run s1.nextConn q with
             | .ok res => .ok ⟨[.text res]⟩
             | .error m => .error (.queryFailed m))) := by
  have h1' : initializeConnection o env s args1 = (s1, .ok r1) := h1
  have h2' : initializeConnection o env s1 args2 = (s2, .ok r2) := h2
  obtain ⟨hc1, hn1, hi1, _⟩ := initializeConnection_ok _ _ _ _ _ _ h1'
  obtain ⟨hc2, hn2, _, hkeep⟩ := initializeConnection_ok _ _ _ _ _ _ h2'
  obtain ⟨i, hi⟩ := Option.ne_none_iff_exists'.mp hi1
  obtain ⟨hinst, hni⟩ := hkeep i hi
  refine ⟨hinst.trans hi.symm, hni, hc1, hc2, by omega, ?_⟩
  intro qargs q hq
  have hdisp : callTool o env s2 "execute-query" qargs = executeQuery o s2 qargs := rfl
  rw [hdisp]
  unfold executeQuery
  rw [hc2, hq]
  cases hrun : o.run s1.nextConn q <;> simp [hrun]

/-- Witness for C2: from the initial state, two `initialize-connection`
calls with the all-succeeding oracle yield connection 1 replacing
connection 0 on the same instance 0. -/
theorem c2_engine_once_session_replaced_witness :
    (⟨some 0, some 1, 1, 2⟩ : ServerState).inst
        = (⟨some 0, some 0, 1, 1⟩ : ServerState).inst ∧
    (⟨some 0, some 1, 1, 2⟩ : ServerState).nextInst
        = (⟨some 0, some 0, 1, 1⟩ : ServerState).nextInst ∧
    (⟨some 0, some 0, 1, 1⟩ : ServerState).conn = some initialState.nextConn ∧
    (⟨some 0, some 1, 1, 2⟩ : ServerState).conn
        = some (⟨some 0, some 0, 1, 1⟩ : ServerState).nextConn ∧
    initialState.nextConn ≠ (⟨some 0, some 0, 1, 1⟩ : ServerState).nextConn ∧
    (∀ (qargs : JsonValue) (q : String),
      parseStringField "query" qargs = .ok q →
      callTool okOracle envNone ⟨some 0, some 1, 1, 2⟩ "execute-query" qargs =
        (⟨some 0, some 1, 1, 2⟩,
          match okOracle.run (⟨some 0, some 0, 1, 1⟩ : ServerState).nextConn q with
          | .ok res => .ok ⟨[.text res]⟩
          | .error m => .error (.queryFailed m))) :=
  c2_engine_once_session_replaced okOracle envNone initialState
    ⟨some 0, some 0, 1, 1⟩ ⟨some 0, some 1, 1, 2⟩ dkArgs dkArgs
    ⟨[.text "Connection to DUCKDB successfully established. Here are the available databases: \nmydb"]⟩
    ⟨[.text "Connection to DUCKDB successfully established. Here are the available databases: \nmydb"]⟩
    (by decide) (by decide)

/-- `connectStep` produces either a success envelope or a
`connectionFailed` error — never a kind or credential error. -/
theorem connectStep_result (o : EngineOracle) (dbType : String)
    (s : ServerState) :
    (∃ r, (connectStep o dbType s).2 = .ok r) ∨
    (∃ m, (connectStep o dbType s).2 = .error (.connectionFailed m)) := by
  unfold connectStep
  split
  · right; exact ⟨_, rfl⟩
  · split
    · right; exact ⟨_, rfl⟩
    · left; exact ⟨_, rfl⟩

/-- `tryConnect` produces either a success envelope or a `connectionFailed`
error — never a kind or credential error. -/
theorem tryConnect_result (o : EngineOracle) (dbType : String)
    (s : ServerState) :
    (∃ r, (tryConnect o dbType s).2 = .ok r) ∨
    (∃ m, (tryConnect o dbType s).2 = .error (.connectionFailed m)) := by
  unfold tryConnect
  split
  · exact connectStep_result o dbType s
  · split
    · right; exact ⟨_, rfl⟩
    · exact connectStep_result o dbType _

/-- **C3**: `initialize-connection` depends on its `type` argument only
through `trim().toUpperCase()`: two inputs with the same normalised form
behave identically (same state, same result, for every oracle and
environment); a normalised form equal to `DUCKDB` or `MOTHERDUCK` is
accepted (never rejected as an unsupported kind); any other normalised form
fails with `UnsupportedKind` and unchanged state, for every oracle — the
engine is never consulted. -/
theorem c3_kind_case_insensitive (o : EngineOracle) (env : Env)
    (s : ServerState) (t1 t2 : String) :
    (normalizeKind t1 = normalizeKind t2 →
      callTool o env s "initialize-connection" (.obj [("type", .str t1)]) =
        callTool o env s "initialize-connection" (.obj [("type", .str t2)])) ∧
    ((normalizeKind t1 = "DUCKDB" ∨ normalizeKind t1 = "MOTHERDUCK") →
      (callTool o env s "initialize-connection" (.obj [("type", .str t1)])).2
        ≠ .error .unsupportedKind) ∧
    (normalizeKind t1 ≠ "DUCKDB" → normalizeKind t1 ≠ "MOTHERDUCK" →
      callTool o env s "initialize-connection" (.obj [("type", .str t1)])
        = (s, .error .unsupportedKind)) := by
  have e : ∀ t : String,
      callTool o env s "initialize-connection" (.obj [("type", .str t)]) =
        (if !(["DUCKDB", "MOTHERDUCK"].contains (normalizeKind t)) then
          (s, .error .unsupportedKind)
        else if normalizeKind t == "MOTHERDUCK" && !env.tokenTruthy then
          (s, .error .missingCredential)
        else tryConnect o (normalizeKind t) s) := fun t => rfl
  refine ⟨?_, ?_, ?_⟩
  · intro h
    rw [e t1, e t2, h]
  · intro h
    rw [e t1]
    have hc : (["DUCKDB", "MOTHERDUCK"].contains (normalizeKind t1)) = true := by
      rcases h with h | h <;> rw [h] <;> rfl
    rw [hc]
    simp only [Bool.not_true, Bool.false_eq_true, if_false]
    split
    · simp
    · rcases tryConnect_result o (normalizeKind t1) s with ⟨r, hr⟩ | ⟨m, hm⟩
      · rw [hr]; simp
      · rw [hm]; simp
  · intro h1 h2
    rw [e t1]
    have hc : (["DUCKDB", "MOTHERDUCK"].contains (normalizeKind t1)) = false := by
      simp [h1, h2]
    rw [hc]
    rfl

/-- Witness for C3: `" duckdb "` and `"DuckDB"` behave identically and are
accepted; `"x"` is rejected with `UnsupportedKind`. -/
theorem c3_kind_case_insensitive_witness :
    (callTool okOracle envNone initialState "initialize-connection"
        (.obj [("type", .str " duckdb ")])
      = callTool okOracle envNone initialState "initialize-connection"
        (.obj [("type", .str "DuckDB")])) ∧
    ((callTool okOracle envNone initialState "initialize-connection"
        (.obj [("type", .str " duckdb ")])).2 ≠ .error .unsupportedKind) ∧
    (callTool okOracle envNone initialState "initialize-connection"
        (.obj [("type", .str "x")])
      = (initialState, .error .unsupportedKind)) :=
  ⟨(c3_kind_case_insensitive okOracle envNone initialState " duckdb " "DuckDB").1
      (by decide),
   (c3_kind_case_insensitive okOracle envNone initialState " duckdb " "DuckDB").2.1
      (Or.inl (by decide)),
   (c3_kind_case_insensitive okOracle envNone initialState "x" "x").2.2
      (by decide) (by decide)⟩

/-- When the kind normalises to `MOTHERDUCK` and the credential variable is
falsy, `initialize-connection` stops at the credential check: error, state
unchanged, oracle never consulted. -/
theorem initializeConnection_missing_credential (o : EngineOracle) (env : Env)
    (s : ServerState) (args : JsonValue) (ty : String)
    (hty : parseStringField "type" args = .ok ty)
    (hkind : normalizeKind ty = "MOTHERDUCK")
    (htok : env.tokenTruthy = false) :
    callTool o env s "initialize-connection" args
      = (s, .error .missingCredential) := by
  have e : callTool o env s "initialize-connection" args
      = initializeConnection o env s args := rfl
  rw [e]
  unfold initializeConnection
  rw [hty]
  simp [hkind, htok]

/-- **C4**: every `initialize-connection` call whose kind normalises to
`MOTHERDUCK` while the credential environment variable is unset fails with
`MissingCredential`; the state (Engine Instance and Session) is unchanged
and the result is the same for every engine oracle, so no engine operation
is performed. -/
theorem c4_motherduck_requires_credential (o : EngineOracle)
    (s : ServerState) (args : JsonValue) (ty : String)
    (hty : parseStringField "type" args = .ok ty)
    (hkind : normalizeKind ty = "MOTHERDUCK") :
    callTool o ⟨none⟩ s "initialize-connection" args
      = (s, .error .missingCredential) :=
  initializeConnection_missing_credential o ⟨none⟩ s args ty hty hkind rfl

/-- Witness for C4: `initialize-connection` with `type = "MotherDuck"` and
no credential fails with `MissingCredential` from the initial state. -/
theorem c4_motherduck_requires_credential_witness :
    callTool okOracle ⟨none⟩ initialState "initialize-connection"
        (.obj [("type", .str "MotherDuck")])
      = (initialState, .error .missingCredential) :=
  c4_motherduck_requires_credential okOracle initialState
    (.obj [("type", .str "MotherDuck")]) "MotherDuck" (by decide) (by decide)

/-- **C8**: with the credential variable set to the empty string, a
`MOTHERDUCK` `initialize-connection` call fails with `MissingCredential` and
behaves exactly as with the variable unset — the presence check is a
JavaScript truthiness check, and the empty string is falsy. -/
theorem c8_empty_credential_is_falsy (o : EngineOracle)
    (s : ServerState) (args : JsonValue) (ty : String)
    (hty : parseStringField "type" args = .ok ty)
    (hkind : normalizeKind ty = "MOTHERDUCK") :
    callTool o ⟨some ""⟩ s "initialize-connection" args
        = (s, .error .missingCredential) ∧
    callTool o ⟨some ""⟩ s "initialize-connection" args
        = callTool o ⟨none⟩ s "initialize-connection" args :=
  ⟨initializeConnection_missing_credential o ⟨some ""⟩ s args ty hty hkind rfl,
   (initializeConnection_missing_credential o ⟨some ""⟩ s args ty hty hkind
       rfl).trans
     (initializeConnection_missing_credential o ⟨none⟩ s args ty hty hkind
       rfl).symm⟩

/-- Witness for C8: empty-string credential at a concrete `MotherDuck`
call. -/
theorem c8_empty_credential_is_falsy_witness :
    callTool okOracle ⟨some ""⟩ initialState "initialize-connection"
        (.obj [("type", .str "MotherDuck")])
      = (initialState, .error .missingCredential) ∧
    callTool okOracle ⟨some ""⟩ initialState "initialize-connection"
        (.obj [("type", .str "MotherDuck")])
      = callTool okOracle ⟨none⟩ initialState "initialize-connection"
        (.obj [("type", .str "MotherDuck")]) :=
  c8_empty_credential_is_falsy okOracle initialState
    (.obj [("type", .str "MotherDuck")]) "MotherDuck" (by decide) (by decide)

/-- A failing `connectStep` either failed at `connect` (state unchanged) or
failed at the subsequent database-listing query (fresh connection already
installed); in both cases the error is `connectionFailed`. -/
theorem connectStep_error (o : EngineOracle) (dbType : String)
    (s s' : ServerState) (e : ToolError)
    (h : connectStep o dbType s = (s', .error e)) :
    (s' = s ∧ ∃ m, o.connect s.nextConn = .error m ∧ e = .connectionFailed m)
    ∨ (s' = { s with conn := some s.nextConn, nextConn := s.nextConn + 1 } ∧
        o.connect s.nextConn = .ok () ∧
        ∃ m, databasesQueryResult o s.nextConn = .error m ∧
          e = .connectionFailed m) := by
  unfold connectStep at h
  split at h
  next m heq =>
    injection h with h1 h2
    injection h2 with h3
    exact Or.inl ⟨h1.symm, m, heq, h3.symm⟩
  next u heq =>
    split at h
    next m heq2 =>
      injection h with h1 h2
      injection h2 with h3
      exact Or.inr ⟨h1.symm, heq, m, heq2, h3.symm⟩
    next dbs heq2 =>
      injection h with h1 h2
      exact Except.noConfusion h2

/-! Fixtures for the C5 analysis: an oracle whose `connect` succeeds but
whose database-listing query fails, and a state with an existing instance
and an active Session (connection 0). -/

/-- Oracle: instance creation and connect succeed, the database-listing
introspection query fails. -/
def badListOracle : EngineOracle where
  create := fun _ => .ok ()
  connect := fun _ => .ok ()
  attachedDatabases := fun _ => .error "listing failed"
  run := fun _ _ => .ok "result"

/-- A state with instance 0 and active Session (connection 0). -/
def sPrev : ServerState := ⟨some 0, some 0, 1, 1⟩

/-- **C5** counterexample: an `initialize-connection` call can fail and yet
replace the previously current Session.  With connection 0 active, a call
whose post-connect database-listing query throws returns a
`ConnectionFailed` error while connection 1 has already been installed — so
"for every failing call the previous Session is unchanged" is false on the
code. -/
theorem c5_counterexample :
    callTool badListOracle envNone sPrev "initialize-connection" dkArgs
      = (⟨some 0, some 1, 1, 2⟩, .error (.connectionFailed "listing failed")) ∧
    sPrev.conn = some 0 ∧
    (⟨some 0, some 1, 1, 2⟩ : ServerState).conn = some 1 := by decide

/-- **C5** (amended): a failing `initialize-connection` call leaves the
previous Session unchanged when the failure happens at or before the connect
primitive (validation, kind check, credential check, instance creation,
connect) — in those cases the state is unchanged except possibly for a newly
created instance; but when connect succeeds and the subsequent
database-listing query fails, the error is returned with the fresh Session
already installed.  In every case the call returns an error alone, never a
partial result alongside it. -/
theorem c5_failed_init_frame (o : EngineOracle) (env : Env)
    (s s' : ServerState) (args : JsonValue) (e : ToolError)
    (h : callTool o env s "initialize-connection" args = (s', .error e)) :
    (s'.conn = s.conn ∧
      (s' = s ∨ s' = { s with inst := some s.nextInst, nextInst := s.nextInst + 1 }))
    ∨ (s'.conn = some s.nextConn ∧ s'.nextConn = s.nextConn + 1 ∧
        o.connect s.nextConn = .ok () ∧
        ∃ m, databasesQueryResult o s.nextConn = .error m ∧
          e = .connectionFailed m) := by
  have e0 : callTool o env s "initialize-connection" args
      = initializeConnection o env s args := rfl
  rw [e0] at h
  unfold initializeConnection at h
  split at h
  · injection h with h1 h2
    subst h1
    exact Or.inl ⟨rfl, Or.inl rfl⟩
  · split at h
    · injection h with h1 h2
      subst h1
      exact Or.inl ⟨rfl, Or.inl rfl⟩
    · split at h
      · injection h with h1 h2
        subst h1
        exact Or.inl ⟨rfl, Or.inl rfl⟩
      · unfold tryConnect at h
        split at h
        · rcases connectStep_error _ _ _ _ _ h with
            ⟨hs, m, _, he⟩ | ⟨hs, hcok, m, hd, he⟩
          · subst hs
            exact Or.inl ⟨rfl, Or.inl rfl⟩
          · subst hs
            exact Or.inr ⟨rfl, rfl, hcok, m, hd, he⟩
        · split at h
          · injection h with h1 h2
            subst h1
            exact Or.inl ⟨rfl, Or.inl rfl⟩
          · rcases connectStep_error _ _ _ _ _ h with
              ⟨hs, m, _, he⟩ | ⟨hs, hcok, m, hd, he⟩
            · subst hs
              exact Or.inl ⟨rfl, Or.inr rfl⟩
            · subst hs
              exact Or.inr ⟨rfl, rfl, hcok, m, hd, he⟩

/-- Witness for the amended C5 theorem: the failed call of the C5
counterexample lands in the replaced-Session disjunct. -/
theorem c5_failed_init_frame_witness :
    ((⟨some 0, some 1, 1, 2⟩ : ServerState).conn = sPrev.conn ∧
      ((⟨some 0, some 1, 1, 2⟩ : ServerState) = sPrev ∨
        (⟨some 0, some 1, 1, 2⟩ : ServerState)
          = { sPrev with inst := some sPrev.nextInst,
                         nextInst := sPrev.nextInst + 1 }))
    ∨ ((⟨some 0, some 1, 1, 2⟩ : ServerState).conn = some sPrev.nextConn ∧
        (⟨some 0, some 1, 1, 2⟩ : ServerState).nextConn = sPrev.nextConn + 1 ∧
        badListOracle.connect sPrev.nextConn = .ok () ∧
        ∃ m, databasesQueryResult badListOracle sPrev.nextConn = .error m ∧
          (ToolError.connectionFailed "listing failed")
            = .connectionFailed m) :=
  c5_failed_init_frame badListOracle envNone sPrev ⟨some 0, some 1, 1, 2⟩
    dkArgs (.connectionFailed "listing failed") (by decide)

/-- Inverting a successful database-listing step: the engine supplied the
attached names and the result is their filtered, comma-newline-joined
aggregation. -/
theorem databasesQueryResult_ok (o : EngineOracle) (c : Nat) (dbs : String)
    (h : databasesQueryResult o c = .ok dbs) :
    ∃ names, o.attachedDatabases c = .ok names ∧
      dbs = String.intercalate ",\n"
        (names.filter (fun n => n != "system" && n != "temp")) := by
  unfold databasesQueryResult at h
  split at h
  · exact Except.noConfusion h
  next names heq =>
    injection h with h1
    exact ⟨names, heq, h1.symm⟩

/-- A successful `connectStep` returns the single-text success envelope built
from the database-listing result. -/
theorem connectStep_ok_response (o : EngineOracle) (dbType : String)
    (s s' : ServerState) (r : ToolResponse)
    (h : connectStep o dbType s = (s', .ok r)) :
    ∃ dbs, databasesQueryResult o s.nextConn = .ok dbs ∧
      r = ⟨[.text ("Connection to " ++ dbType
        ++ " successfully established. Here are the available databases: \n"
        ++ dbs)]⟩ := by
  unfold connectStep at h
  split at h
  · injection h with h1 h2
    exact Except.noConfusion h2
  · split at h
    next m heq =>
      injection h with h1 h2
      exact Except.noConfusion h2
    next dbs heq =>
      injection h with h1 h2
      injection h2 with h3
      exact ⟨dbs, heq, h3.symm⟩

/-- **C6**: every successful `initialize-connection` call returns a success
envelope with exactly one text content item; its text names the normalised
kind and lists the names of the attached databases other than `system` and
`temp`, joined by comma-newline (via the engine's evaluation of the
database-listing introspection query on the freshly installed
connection). -/
theorem c6_success_envelope (o : EngineOracle) (env : Env)
    (s s' : ServerState) (args : JsonValue) (r : ToolResponse)
    (h : callTool o env s "initialize-connection" args = (s', .ok r)) :
    ∃ ty names,
      parseStringField "type" args = .ok ty ∧
      o.attachedDatabases s.nextConn = .ok names ∧
      r.content = [.text ("Connection to " ++ normalizeKind ty
        ++ " successfully established. Here are the available databases: \n"
        ++ String.intercalate ",\n"
            (names.filter (fun n => n != "system" && n != "temp")))] := by
  have e0 : callTool o env s "initialize-connection" args
      = initializeConnection o env s args := rfl
  rw [e0] at h
  unfold initializeConnection at h
  split at h
  · exact absurd h (by simp)
  next ty hty =>
    split at h
    · exact absurd h (by simp)
    · split at h
      · exact absurd h (by simp)
      · unfold tryConnect at h
        split at h
        · obtain ⟨dbs, hdbs, hr⟩ := connectStep_ok_response _ _ _ _ _ h
          obtain ⟨names, hnames, hagg⟩ := databasesQueryResult_ok _ _ _ hdbs
          exact ⟨ty, names, hty, hnames, by rw [hr, hagg]⟩
        · split at h
          · exact absurd h (by simp)
          · obtain ⟨dbs, hdbs, hr⟩ := connectStep_ok_response _ _ _ _ _ h
            obtain ⟨names, hnames, hagg⟩ := databasesQueryResult_ok _ _ _ hdbs
            exact ⟨ty, names, hty, hnames, by rw [hr, hagg]⟩

/-- Witness for C6: the concrete successful run from the initial state,
whose envelope lists `mydb` and omits `system` and `temp`. -/
theorem c6_success_envelope_witness :
    ∃ ty names,
      parseStringField "type" dkArgs = .ok ty ∧
      okOracle.attachedDatabases initialState.nextConn = .ok names ∧
      (⟨[.text "Connection to DUCKDB successfully established. Here are the available databases: \nmydb"]⟩ : ToolResponse).content
        = [.text ("Connection to " ++ normalizeKind ty
          ++ " successfully established. Here are the available databases: \n"
          ++ String.intercalate ",\n"
              (names.filter (fun n => n != "system" && n != "temp")))] :=
  c6_success_envelope okOracle envNone initialState ⟨some 0, some 0, 1, 1⟩
    dkArgs
    ⟨[.text "Connection to DUCKDB successfully established. Here are the available databases: \nmydb"]⟩
    (by decide)

/-- **C7** counterexample: with no Session, a `read-schemas` invocation with
invalid arguments (missing `database_name`) fails with `NoActiveSession`
rather than a validation error — the session-presence check executed on
unvalidated input, so validation does not precede all handler logic. -/
theorem c7_counterexample :
    parseStringField "database_name" (.obj [])
      = .error "Required field missing: database_name" ∧
    callTool okOracle envNone initialState "read-schemas" (.obj [])
      = (initialState, .error .noActiveSession) := by decide

/-- **C7** (amended): for `initialize-connection`, arguments are validated
before any handler logic.  For `read-schemas` and `execute-query` the
session-presence check runs first, on unvalidated input; validation then
happens before any engine call or any use of the argument fields — with
invalid arguments each tool fails (with `NoActiveSession` or
`ValidationError`) leaving the state unchanged, identically for every
engine oracle. -/
theorem c7_validation_order (o : EngineOracle) (env : Env) (s : ServerState)
    (args : JsonValue) :
    (∀ m, parseStringField "type" args = .error m →
      callTool o env s "initialize-connection" args
        = (s, .error (.validationError m))) ∧
    (s.conn = none →
      callTool o env s "read-schemas" args = (s, .error .noActiveSession) ∧
      callTool o env s "execute-query" args = (s, .error .noActiveSession)) ∧
    (∀ c m, s.conn = some c →
      parseStringField "database_name" args = .error m →
      callTool o env s "read-schemas" args
        = (s, .error (.validationError m))) ∧
    (∀ c m, s.conn = some c →
      parseStringField "query" args = .error m →
      callTool o env s "execute-query" args
        = (s, .error (.validationError m))) := by
  refine ⟨?_, ?_, ?_, ?_⟩
  · intro m hm
    have e0 : callTool o env s "initialize-connection" args
        = initializeConnection o env s args := rfl
    rw [e0]
    unfold initializeConnection
    rw [hm]
  · intro hc
    exact ⟨by simp [callTool, readSchemas, hc],
           by simp [callTool, executeQuery, hc]⟩
  · intro c m hc hm
    have e0 : callTool o env s "read-schemas" args
        = readSchemas o s args := rfl
    rw [e0]
    unfold readSchemas
    rw [hc, hm]
  · intro c m hc hm
    have e0 : callTool o env s "execute-query" args
        = executeQuery o s args := rfl
    rw [e0]
    unfold executeQuery
    rw [hc, hm]

/-- Witness for the amended C7 theorem: concrete invalid payloads with and
without an active Session. -/
theorem c7_validation_order_witness :
    callTool okOracle envNone initialState "initialize-connection" (.obj [])
      = (initialState, .error (.validationError "Required field missing: type")) ∧
    (callTool okOracle envNone initialState "read-schemas" (.obj [])
        = (initialState, .error .noActiveSession) ∧
      callTool okOracle envNone initialState "execute-query" (.obj [])
        = (initialState, .error .noActiveSession)) ∧
    callTool okOracle envNone sPrev "read-schemas" (.obj [])
      = (sPrev, .error (.validationError "Required field missing: database_name")) ∧
    callTool okOracle envNone sPrev "execute-query" (.obj [])
      = (sPrev, .error (.validationError "Required field missing: query")) :=
  ⟨(c7_validation_order okOracle envNone initialState (.obj [])).1 _ rfl,
   (c7_validation_order okOracle envNone initialState (.obj [])).2.1 rfl,
   (c7_validation_order okOracle envNone sPrev (.obj [])).2.2.1 0 _ rfl rfl,
   (c7_validation_order okOracle envNone sPrev (.obj [])).2.2.2 0 _ rfl rfl⟩

/-- Zod-style parsing depends only on the required field's lookup: any
object whose field resolves to a string parses to that string, whatever
other fields are present. -/
theorem parseStringField_lookup (fs : List (String × JsonValue))
    (field v : String) (h : lookupField fs field = some (.str v)) :
    parseStringField field (.obj fs) = .ok v := by
  unfold parseStringField
  dsimp only
  rw [h]

/-- **C9**: for each of the three tools, an arguments object containing the
required field as a string plus arbitrary additional unknown fields
validates successfully, and the extra fields are silently discarded: the
invocation behaves exactly as if only the required field had been sent. -/
theorem c9_unknown_fields_stripped (o : EngineOracle) (env : Env)
    (s : ServerState) (fs : List (String × JsonValue)) (v : String) :
    (lookupField fs "type" = some (.str v) →
      parseStringField "type" (.obj fs) = .ok v ∧
      callTool o env s "initialize-connection" (.obj fs)
        = callTool o env s "initialize-connection" (.obj [("type", .str v)])) ∧
    (lookupField fs "database_name" = some (.str v) →
      parseStringField "database_name" (.obj fs) = .ok v ∧
      callTool o env s "read-schemas" (.obj fs)
        = callTool o env s "read-schemas" (.obj [("database_name", .str v)])) ∧
    (lookupField fs "query" = some (.str v) →
      parseStringField "query" (.obj fs) = .ok v ∧
      callTool o env s "execute-query" (.obj fs)
        = callTool o env s "execute-query" (.obj [("query", .str v)])) := by
  refine ⟨fun h => ⟨parseStringField_lookup fs _ v h, ?_⟩,
          fun h => ⟨parseStringField_lookup fs _ v h, ?_⟩,
          fun h => ⟨parseStringField_lookup fs _ v h, ?_⟩⟩
  · have e0 : ∀ a, callTool o env s "initialize-connection" a
        = initializeConnection o env s a := fun _ => rfl
    rw [e0, e0]
    unfold initializeConnection
    rw [parseStringField_lookup fs _ v h]
    rfl
  · have e0 : ∀ a, callTool o env s "read-schemas" a
        = readSchemas o s a := fun _ => rfl
    rw [e0, e0]
    unfold readSchemas
    cases s.conn with
    | none => rfl
    | some c =>
      rw [parseStringField_lookup fs _ v h]
      rfl
  · have e0 : ∀ a, callTool o env s "execute-query" a
        = executeQuery o s a := fun _ => rfl
    rw [e0, e0]
    unfold executeQuery
    cases s.conn with
    | none => rfl
    | some c =>
      rw [parseStringField_lookup fs _ v h]
      rfl

/-- Witness for C9: payloads with an extra unknown field behave as the
stripped payloads, for all three tools. -/
theorem c9_unknown_fields_stripped_witness :
    (parseStringField "type"
        (.obj [("type", .str "DuckDB"), ("extra", .num 5)]) = .ok "DuckDB" ∧
      callTool okOracle envNone initialState "initialize-connection"
          (.obj [("type", .str "DuckDB"), ("extra", .num 5)])
        = callTool okOracle envNone initialState "initialize-connection"
          (.obj [("type", .str "DuckDB")])) ∧
    (parseStringField "database_name"
        (.obj [("database_name", .str "mydb"), ("extra", .bool true)])
        = .ok "mydb" ∧
      callTool okOracle envNone sPrev "read-schemas"
          (.obj [("database_name", .str "mydb"), ("extra", .bool true)])
        = callTool okOracle envNone sPrev "read-schemas"
          (.obj [("database_name", .str "mydb")])) ∧
    (parseStringField "query"
        (.obj [("query", .str "SELECT 1"), ("extra", .null)]) = .ok "SELECT 1" ∧
      callTool okOracle envNone sPrev "execute-query"
          (.obj [("query", .str "SELECT 1"), ("extra", .null)])
        = callTool okOracle envNone sPrev "execute-query"
          (.obj [("query", .str "SELECT 1")])) :=
  ⟨(c9_unknown_fields_stripped okOracle envNone initialState
      [("type", .str "DuckDB"), ("extra", .num 5)] "DuckDB").1 rfl,
   (c9_unknown_fields_stripped okOracle envNone sPrev
      [("database_name", .str "mydb"), ("extra", .bool true)] "mydb").2.1 rfl,
   (c9_unknown_fields_stripped okOracle envNone sPrev
      [("query", .str "SELECT 1"), ("extra", .null)] "SELECT 1").2.2 rfl⟩

/-- An oracle whose instance creation and connect primitives both throw. -/
def failOracle : EngineOracle where
  create := fun _ => .error "create failed"
  connect := fun _ => .error "connect failed"
  attachedDatabases := fun _ => .ok []
  run := fun _ _ => .ok "result"

/-- **C10**: when the engine-instance creation primitive or the connect
primitive itself throws, `initialize-connection` returns an error and the
module-level connection variable is unchanged — the previously current
connection (or null) remains current, because the assignment happens only
after the connect primitive returns successfully. -/
theorem c10_connection_unchanged_on_engine_throw (o : EngineOracle)
    (env : Env) (s : ServerState) (args : JsonValue)
    (hfail : (s.inst = none ∧ ∃ m, o.create s.nextInst = .error m)
      ∨ (∃ m, o.connect s.nextConn = .error m)) :
    (callTool o env s "initialize-connection" args).1.conn = s.conn ∧
    ∃ e, (callTool o env s "initialize-connection" args).2 = .error e := by
  have e0 : callTool o env s "initialize-connection" args
      = initializeConnection o env s args := rfl
  rw [e0]
  unfold initializeConnection
  split
  · exact ⟨rfl, _, rfl⟩
  · split
    · exact ⟨rfl, _, rfl⟩
    · split
      · exact ⟨rfl, _, rfl⟩
      · unfold tryConnect connectStep
        rcases hfail with ⟨hnone, m, hm⟩ | ⟨m, hm⟩
        · simp only [hnone, hm]
          exact ⟨by trivial, _, rfl⟩
        · cases hsi : s.inst with
          | some i =>
            simp only [hsi, hm]
            exact ⟨by trivial, _, rfl⟩
          | none =>
            simp only [hsi]
            cases hcr : o.create s.nextInst with
            | error m2 =>
              simp only [hcr]
              exact ⟨by trivial, _, rfl⟩
            | ok u =>
              simp only [hcr, hm]
              exact ⟨by trivial, _, rfl⟩

/-- Witness for C10: with a throwing `create`, the call from the initial
state fails and the connection stays null. -/
theorem c10_connection_unchanged_on_engine_throw_witness :
    (callTool failOracle envNone initialState "initialize-connection"
        dkArgs).1.conn = initialState.conn ∧
    ∃ e, (callTool failOracle envNone initialState "initialize-connection"
        dkArgs).2 = .error e :=
  c10_connection_unchanged_on_engine_throw failOracle envNone initialState
    dkArgs (Or.inl ⟨rfl, "create failed", rfl⟩)

end MotherDuckServer
